import Mathlib

/-!
Shallow embedding of `src/healthcare_etl_analytics.py`, a Spark ETL pipeline
that joins a patient dataset with a hospital-readmission dataset through a
range-containment predicate on age, selects a fixed 32-column output, and
prints seven grouped aggregate reports.

DataFrames are modelled as Lean lists of records; Spark SQL expressions
become total Lean functions; Spark `NULL` becomes `Option`.
-/

namespace HealthcareETL

/-! ### Interval parser: `regexp_extract(col("age"), r"\[(\d+)-\d+\)", 1).cast("integer")`

Spark's `regexp_extract` uses Java `Matcher.find()` semantics: the pattern is
matched unanchored at the leftmost possible position, and the requested capture
group is returned; if no position matches, the empty string is returned.
For the concrete pattern `\[(\d+)-\d+\)` greedy matching coincides with
maximal-munch digit scanning, embedded below.  The subsequent
`cast("integer")` is Spark's non-ANSI string-to-int cast: `NULL` on a
non-numeric string (in particular on the empty string) and `NULL` on 32-bit
overflow. -/

/-- Longest digit prefix of a character list, together with the rest. -/
def takeDigits : List Char → List Char × List Char
  | [] => ([], [])
  | c :: cs =>
    if c.isDigit then
      let p := takeDigits cs
      (c :: p.1, p.2)
    else ([], c :: cs)

/-- Try to match `\[(\d+)-\d+\)` starting exactly at the head of the list,
returning the first capture group (the lower-bound digits).  For this pattern
greedy `\d+` is maximal-munch: after the opening bracket the digits run
(nonempty), a dash, a second digits run (nonempty), and a closing
parenthesis must follow in order. -/
def matchAt (l : List Char) : Option (List Char) :=
  match l with
  | [] => none
  | c :: rest =>
    let p1 := takeDigits rest
    let p2 := takeDigits (p1.2.drop 1)
    if c = '[' ∧ p1.1 ≠ [] ∧ p1.2.head? = some '-' ∧
        p2.1 ≠ [] ∧ p2.2.head? = some ')' then
      some p1.1
    else none

/-- Leftmost-match scan: the capture of the first position where the pattern
matches, as in Java `Matcher.find()`. -/
def findMatch : List Char → Option (List Char)
  | [] => none
  | c :: cs =>
    match matchAt (c :: cs) with
    | some d => some d
    | none => findMatch cs

/-- `regexp_extract(s, r"\[(\d+)-\d+\)", 1)`: the first capture group of the
leftmost match, or the empty string when the pattern does not occur. -/
def regexp_extract (s : String) : String :=
  match findMatch s.data with
  | some d => String.mk d
  | none => ""

/-- Numeric value of a digit string (most significant digit first). -/
def digitsToNat (l : List Char) : Nat :=
  l.foldl (fun acc c => acc * 10 + (c.toNat - 48)) 0

/-- All-digit check with nonemptiness: the shape of strings accepted by the
integral part of Spark's string-to-int cast. -/
def digitsVal (l : List Char) : Option Nat :=
  match l with
  | [] => none
  | _ :: _ => if l.all Char.isDigit then some (digitsToNat l) else none

/-- Spark non-ANSI `cast("integer")` on a string: optional sign followed by
digits, `NULL` (i.e. `none`) on any other shape and on 32-bit overflow. -/
def castInteger (s : String) : Option Int :=
  match s.data with
  | [] => none
  | c :: rest =>
    if c = '-' then
      (digitsVal rest).bind fun n =>
        if n ≤ 2147483648 then some (-(n : Int)) else none
    else if c = '+' then
      (digitsVal rest).bind fun n =>
        if n ≤ 2147483647 then some (n : Int) else none
    else
      (digitsVal (c :: rest)).bind fun n =>
        if n ≤ 2147483647 then some (n : Int) else none

/-- The derived `age_lower` column of the readmissions dataframe (line 32–34
of the source): extract the lower bucket bound and cast it to integer. -/
def age_lower (s : String) : Option Int :=
  castInteger (regexp_extract s)

/-! ### Data model

One record per row of the two (already column-name-normalized) input
dataframes.  Field names are the canonical column names the source selects.
Numeric columns inferred by Spark are `Int`, monetary amounts are `ℚ`,
everything else is `String`. -/

/-- A row of the patients dataframe as loaded (before `patient_id`). -/
structure PatientRaw where
  name : String
  age : Int
  gender : String
  blood_type : String
  medical_condition : String
  date_of_admission : String
  doctor : String
  hospital : String
  insurance_provider : String
  billing_amount : ℚ
  room_number : Int
  admission_type : String
  discharge_date : String
  medication : String
  test_results : String
deriving DecidableEq

/-- A patients row after `withColumn("patient_id", monotonically_increasing_id())`
(line 27 of the source). -/
structure Patient extends PatientRaw where
  patient_id : Nat
deriving DecidableEq

/-- A row of the readmissions dataframe as loaded; `age` is the bucketed age
label such as `"[20-30)"`. -/
structure Readmission where
  age : String
  time_in_hospital : Int
  n_lab_procedures : Int
  n_procedures : Int
  n_medications : Int
  n_outpatient : Int
  n_inpatient : Int
  n_emergency : Int
  medical_specialty : String
  diag_1 : String
  diag_2 : String
  diag_3 : String
  glucose_test : String
  a1ctest : String
  change : String
  diabetes_med : String
  readmitted : String
deriving DecidableEq

/-- A readmissions row after `withColumn("age_lower", ...)` (lines 32–34). -/
structure ReadmissionProc extends Readmission where
  age_lower : Option Int
deriving DecidableEq

/-- The `withColumn("age_lower", ...)` transformation applied to one row. -/
def addAgeLower (r : Readmission) : ReadmissionProc :=
  { toReadmission := r, age_lower := age_lower r.age }

/-! ### Identifier assignment: `monotonically_increasing_id()`

Spark's `monotonically_increasing_id` puts the partition index in the upper
31 bits and the within-partition row index in the lower 33 bits: row `j` of
partition `i` receives id `i * 2^33 + j`.  The dataframe is modelled as a
list of partitions, each a list of rows in order. -/

/-- Ids for the rows of one partition `part`, partition index `i`, starting at
within-partition row index `j`. -/
def idsFrom (i j : Nat) : List α → List (α × Nat)
  | [] => []
  | a :: rest => (a, i * 2 ^ 33 + j) :: idsFrom i (j + 1) rest

/-- `monotonically_increasing_id` over the partitions, starting at partition
index `i`. -/
def monotonically_increasing_id (i : Nat) : List (List α) → List (α × Nat)
  | [] => []
  | part :: rest => idsFrom i 0 part ++ monotonically_increasing_id (i + 1) rest

/-- `withColumn("patient_id", monotonically_increasing_id())` at the row
level, for a partitioned dataframe. -/
def withColumn_patient_id (parts : List (List α)) : List (α × Nat) :=
  monotonically_increasing_id 0 parts

/-- The patients dataframe after line 27: every raw row augmented with its
assigned `patient_id`. -/
def addPatientIds (parts : List (List PatientRaw)) : List Patient :=
  (withColumn_patient_id parts).map fun x => { toPatientRaw := x.1, patient_id := x.2 }

/-! ### Range join (lines 45–49)

`p.join(r, col("p.age").between(col("r.age_lower"), col("r.age_lower") + 9), "inner")`.
Spark's `between` is `age >= age_lower AND age <= age_lower + 9`; when
`age_lower` is `NULL` the predicate evaluates to `NULL` and the inner join
drops the pair.  The join is embedded as the order-preserving nested-loop
product filtered by the predicate. -/

/-- The join predicate with the upper bound `age_lower + 9` evaluated over
unbounded integers: true exactly when `age_lower` is non-null and
`age_lower ≤ age ≤ age_lower + 9`.  This is the mathematical reading of the
predicate; it coincides with the program's 32-bit evaluation (`joinCond32`
below) whenever `age_lower + 9` does not overflow `Int32` — in particular
for every `age_lower` the cast produces with `age_lower + 9 < 2^31` — and
otherwise only accepts pairs the program rejects (a wrapped upper bound is
negative), so it over-approximates the program's match set. -/
def joinCond (p : Patient) (r : ReadmissionProc) : Bool :=
  match r.age_lower with
  | none => false
  | some lo => decide (lo ≤ p.age ∧ p.age ≤ lo + 9)

/-- The inner range join as a list of matched row pairs, with the
over-approximating predicate `joinCond` (sound for universally quantified
properties of the output; see `joined_df32` for the bit-exact join). -/
def joined_df (ps : List Patient) (rs : List ReadmissionProc) :
    List (Patient × ReadmissionProc) :=
  ps.flatMap fun p => (rs.filter fun r => joinCond p r).map fun r => (p, r)

/-- Two's-complement wrap-around of Spark's non-ANSI `IntegerType`
arithmetic: the representative of `n` modulo `2^32` in
`[-2^31, 2^31)`. -/
def wrap32 (n : Int) : Int :=
  (n + 2147483648) % 4294967296 - 2147483648

/-- The bit-faithful join predicate of line 47: `age_lower` and the literal
9 are `IntegerType`, so `col("r.age_lower") + 9` is Java 32-bit addition and
silently wraps on overflow under non-ANSI evaluation. -/
def joinCond32 (p : Patient) (r : ReadmissionProc) : Bool :=
  match r.age_lower with
  | none => false
  | some lo => decide (lo ≤ p.age ∧ p.age ≤ wrap32 (lo + 9))

/-- The inner range join `joined_df` with the program's 32-bit evaluation of
the between-predicate. -/
def joined_df32 (ps : List Patient) (rs : List ReadmissionProc) :
    List (Patient × ReadmissionProc) :=
  ps.flatMap fun p => (rs.filter fun r => joinCond32 p r).map fun r => (p, r)

/-! ### Final select (lines 54–87)

`final_df` keeps exactly 32 columns: 16 from the patient side (including the
assigned `patient_id` and `p.age` aliased back to `age`) and 16 from the
readmission side; the readmission-side `age` label and the derived
`age_lower` are not selected. -/

/-- A row of `final_df`: the 32 selected columns, in select order. -/
structure FinalRecord where
  patient_id : Nat
  name : String
  age : Int
  gender : String
  blood_type : String
  medical_condition : String
  date_of_admission : String
  doctor : String
  hospital : String
  insurance_provider : String
  billing_amount : ℚ
  room_number : Int
  admission_type : String
  discharge_date : String
  medication : String
  test_results : String
  time_in_hospital : Int
  n_lab_procedures : Int
  n_procedures : Int
  n_medications : Int
  n_outpatient : Int
  n_inpatient : Int
  n_emergency : Int
  medical_specialty : String
  diag_1 : String
  diag_2 : String
  diag_3 : String
  glucose_test : String
  a1ctest : String
  change : String
  diabetes_med : String
  readmitted : String
deriving DecidableEq

/-- The select applied to one joined pair: patient-side columns first, then
readmission-side columns, exactly as in lines 54–87. -/
def select_final (p : Patient) (r : ReadmissionProc) : FinalRecord :=
  { patient_id := p.patient_id
    name := p.name
    age := p.age
    gender := p.gender
    blood_type := p.blood_type
    medical_condition := p.medical_condition
    date_of_admission := p.date_of_admission
    doctor := p.doctor
    hospital := p.hospital
    insurance_provider := p.insurance_provider
    billing_amount := p.billing_amount
    room_number := p.room_number
    admission_type := p.admission_type
    discharge_date := p.discharge_date
    medication := p.medication
    test_results := p.test_results
    time_in_hospital := r.time_in_hospital
    n_lab_procedures := r.n_lab_procedures
    n_procedures := r.n_procedures
    n_medications := r.n_medications
    n_outpatient := r.n_outpatient
    n_inpatient := r.n_inpatient
    n_emergency := r.n_emergency
    medical_specialty := r.medical_specialty
    diag_1 := r.diag_1
    diag_2 := r.diag_2
    diag_3 := r.diag_3
    glucose_test := r.glucose_test
    a1ctest := r.a1ctest
    change := r.change
    diabetes_med := r.diabetes_med
    readmitted := r.readmitted }

/-! ### Schema-level model of the select -/

/-- Which aliased dataframe a select expression reads from: `p` (patients) or
`r` (readmissions). -/
inductive Side where
  | p : Side
  | r : Side
deriving DecidableEq

/-- The select expression list of lines 54–87: source side, source column
name, and optional output alias (only `col("p.age").alias("age")` has one). -/
def selectExprs : List (Side × String × Option String) :=
  [ (Side.p, "patient_id", none)
  , (Side.p, "name", none)
  , (Side.p, "age", some "age")
  , (Side.p, "gender", none)
  , (Side.p, "blood_type", none)
  , (Side.p, "medical_condition", none)
  , (Side.p, "date_of_admission", none)
  , (Side.p, "doctor", none)
  , (Side.p, "hospital", none)
  , (Side.p, "insurance_provider", none)
  , (Side.p, "billing_amount", none)
  , (Side.p, "room_number", none)
  , (Side.p, "admission_type", none)
  , (Side.p, "discharge_date", none)
  , (Side.p, "medication", none)
  , (Side.p, "test_results", none)
  , (Side.r, "time_in_hospital", none)
  , (Side.r, "n_lab_procedures", none)
  , (Side.r, "n_procedures", none)
  , (Side.r, "n_medications", none)
  , (Side.r, "n_outpatient", none)
  , (Side.r, "n_inpatient", none)
  , (Side.r, "n_emergency", none)
  , (Side.r, "medical_specialty", none)
  , (Side.r, "diag_1", none)
  , (Side.r, "diag_2", none)
  , (Side.r, "diag_3", none)
  , (Side.r, "glucose_test", none)
  , (Side.r, "a1ctest", none)
  , (Side.r, "change", none)
  , (Side.r, "diabetes_med", none)
  , (Side.r, "readmitted", none) ]

/-- Output column name of a select expression: the alias when present,
otherwise the unqualified source column name. -/
def outputName (e : Side × String × Option String) : String :=
  match e.2.2 with
  | some a => a
  | none => e.2.1

/-- The output schema of `final_df`. -/
def final_df_columns : List String := selectExprs.map outputName

/-- Modelled from the spec: the column names of the patients source file
(the CSV header is not part of the repository; the names are those the
source's select references on the `p` side and the spec's PatientRecord
description), after normalization. -/
def patients_input_columns : List String :=
  [ "name", "age", "gender", "blood_type", "medical_condition",
    "date_of_admission", "doctor", "hospital", "insurance_provider",
    "billing_amount", "room_number", "admission_type", "discharge_date",
    "medication", "test_results" ]

/-- The patients dataframe schema after `withColumn("patient_id", ...)`. -/
def patients_df_columns : List String := patients_input_columns ++ ["patient_id"]

/-- Modelled from the spec: the column names of the readmissions source file
(the CSV header is not part of the repository; the names are those the
source's select references on the `r` side plus the `age` bucket label read
on line 33), after normalization. -/
def readmissions_input_columns : List String :=
  [ "age", "time_in_hospital", "n_lab_procedures", "n_procedures",
    "n_medications", "n_outpatient", "n_inpatient", "n_emergency",
    "medical_specialty", "diag_1", "diag_2", "diag_3", "glucose_test",
    "a1ctest", "change", "diabetes_med", "readmitted" ]

/-- The readmissions dataframe schema after `withColumn("age_lower", ...)`. -/
def readmissions_df_columns : List String :=
  readmissions_input_columns ++ ["age_lower"]

/-! ### Aggregation engine (lines 101–127)

Spark `groupBy(k).count()`, `round(avg(f), 2)`, and
`orderBy(col("count").desc()).show(5)` over the final record list.  Group
output order in Spark is unspecified; the embedding lists groups in order of
first appearance of their key. -/

/-- Distinct keys in order of first appearance. -/
def dedupKeys : List String → List String
  | [] => []
  | k :: ks => k :: dedupKeys (ks.filter fun x => x ≠ k)
termination_by l => l.length
decreasing_by
  simp only [List.length_cons]
  exact Nat.lt_succ_of_le (List.length_filter_le _ _)

/-- `groupBy(key).count()`: one `(key, count)` row per distinct key. -/
def groupByCount (key : α → String) (df : List α) : List (String × Nat) :=
  (dedupKeys (df.map key)).map fun k => (k, df.countP fun x => key x == k)

/-- Java/Spark `HALF_UP` rounding to an integer: ties round away from zero
(`2.5 ↦ 3`, `-2.5 ↦ -3`). -/
def roundHalfUp (x : ℚ) : ℤ :=
  if x < 0 then -⌊-x + 1 / 2⌋ else ⌊x + 1 / 2⌋

/-- Spark `round(q, 2)`: round to two decimal places, `HALF_UP`. -/
def round2 (q : ℚ) : ℚ := (roundHalfUp (q * 100) : ℚ) / 100

/-- `round(avg(f), 2)` over the whole dataframe: `NULL` when it is empty. -/
def avgRound2 (f : α → ℚ) (df : List α) : Option ℚ :=
  match df with
  | [] => none
  | _ :: _ => some (round2 ((df.map f).sum / (df.length : ℚ)))

/-- `groupBy(key).agg(round(avg(f), 2))`: one `(key, mean)` row per distinct
key (every group is nonempty by construction). -/
def groupByAvg (key : α → String) (f : α → ℚ) (df : List α) :
    List (String × ℚ) :=
  (dedupKeys (df.map key)).map fun k =>
    let g := df.filter fun x => key x == k
    (k, round2 ((g.map f).sum / (g.length : ℚ)))

/-- Stable insertion keeping counts in descending order. -/
def insertByCountDesc (x : String × Nat) : List (String × Nat) → List (String × Nat)
  | [] => [x]
  | y :: ys => if y.2 < x.2 then x :: y :: ys else y :: insertByCountDesc x ys

/-- Stable sort by count descending (`orderBy(col("count").desc())`). -/
def sortByCountDesc : List (String × Nat) → List (String × Nat)
  | [] => []
  | x :: xs => insertByCountDesc x (sortByCountDesc xs)

/-- `orderBy(col("count").desc()).show(5)`: the five largest groups. -/
def top5 (groups : List (String × Nat)) : List (String × Nat) :=
  (sortByCountDesc groups).take 5

/-- One console report: its category (the printed heading) and its rows. -/
inductive Report where
  | genderDistribution : List (String × Nat) → Report
  | averageAge : Option ℚ → Report
  | topHospitals : List (String × Nat) → Report
  | topDoctors : List (String × Nat) → Report
  | readmissionCounts : List (String × Nat) → Report
  | avgTimeInHospitalByReadmission : List (String × ℚ) → Report
  | avgBillingByAdmissionType : List (String × ℚ) → Report
deriving DecidableEq

/-- The heading printed above each report (lines 102, 106, 110, 114, 118,
122, 126 of the source). -/
def Report.category : Report → String
  | .genderDistribution _ => "Gender Distribution"
  | .averageAge _ => "Average Age"
  | .topHospitals _ => "Top 5 Hospitals by Patient Count"
  | .topDoctors _ => "Top 5 Doctors by Patient Count"
  | .readmissionCounts _ => "Readmission Counts"
  | .avgTimeInHospitalByReadmission _ => "Average Time in Hospital by Readmission"
  | .avgBillingByAdmissionType _ => "Average Billing by Admission Type"

/-- The seven console reports of lines 101–127, in print order. -/
def consoleReports (df : List FinalRecord) : List Report :=
  [ Report.genderDistribution (groupByCount (fun x => x.gender) df)
  , Report.averageAge (avgRound2 (fun x => (x.age : ℚ)) df)
  , Report.topHospitals (top5 (groupByCount (fun x => x.hospital) df))
  , Report.topDoctors (top5 (groupByCount (fun x => x.doctor) df))
  , Report.readmissionCounts (groupByCount (fun x => x.readmitted) df)
  , Report.avgTimeInHospitalByReadmission
      (groupByAvg (fun x => x.readmitted) (fun x => (x.time_in_hospital : ℚ)) df)
  , Report.avgBillingByAdmissionType
      (groupByAvg (fun x => x.admission_type) (fun x => x.billing_amount) df) ]

/-! ### The whole pipeline -/

/-- The pipeline from loaded rows to the persisted record set and the console
reports: normalize-and-load is mechanical I/O outside the model, so the
inputs are the partitioned patient rows and the readmission rows. -/
def runPipeline (parts : List (List PatientRaw)) (rs : List Readmission) :
    List FinalRecord × List Report :=
  let ps := addPatientIds parts
  let rsP := rs.map addAgeLower
  let final := (joined_df ps rsP).map fun x => select_final x.1 x.2
  (final, consoleReports final)

/-! ### Sample rows for concrete scenarios -/

/-- A patient row whose only distinguishing attribute is its age. -/
def samplePatientRaw (a : Int) : PatientRaw :=
  { name := "n", age := a, gender := "F", blood_type := "O+",
    medical_condition := "c", date_of_admission := "d", doctor := "doc",
    hospital := "h", insurance_provider := "i", billing_amount := 0,
    room_number := 1, admission_type := "t", discharge_date := "e",
    medication := "m", test_results := "x" }

/-- A patient row with a given age and id 0. -/
def samplePatient (a : Int) : Patient :=
  { toPatientRaw := samplePatientRaw a, patient_id := 0 }

/-- A readmission row whose only distinguishing attribute is its age-bucket
label. -/
def sampleReadmission (bucket : String) : Readmission :=
  { age := bucket, time_in_hospital := 3, n_lab_procedures := 0,
    n_procedures := 0, n_medications := 0, n_outpatient := 0,
    n_inpatient := 0, n_emergency := 0, medical_specialty := "s",
    diag_1 := "d1", diag_2 := "d2", diag_3 := "d3", glucose_test := "no",
    a1ctest := "no", change := "no", diabetes_med := "no",
    readmitted := "no" }

/-! ## Theorems -/

/-- The digit prefix returned by `takeDigits` consists of digits. -/
lemma takeDigits_fst_all_digits (l : List Char) :
    (takeDigits l).1.all Char.isDigit = true := by
  induction l with
  | nil => rfl
  | cons c cs ih =>
    by_cases h : c.isDigit <;> simp [takeDigits, h, ih]

/-- A successful `matchAt` capture is a nonempty digit string. -/
lemma matchAt_capture {l cap : List Char} (h : matchAt l = some cap) :
    cap ≠ [] ∧ cap.all Char.isDigit = true := by
  cases l with
  | nil => simp [matchAt] at h
  | cons c rest =>
    have e : matchAt (c :: rest) =
        if c = '[' ∧ (takeDigits rest).1 ≠ [] ∧
            (takeDigits rest).2.head? = some '-' ∧
            (takeDigits ((takeDigits rest).2.drop 1)).1 ≠ [] ∧
            (takeDigits ((takeDigits rest).2.drop 1)).2.head? = some ')' then
          some (takeDigits rest).1
        else none := rfl
    rw [e] at h
    split at h
    · rename_i hc
      obtain rfl : (takeDigits rest).1 = cap := by injection h
      exact ⟨hc.2.1, takeDigits_fst_all_digits rest⟩
    · exact absurd h (by simp)

/-- A successful `findMatch` capture is a nonempty digit string. -/
lemma findMatch_capture {l cap : List Char} (h : findMatch l = some cap) :
    cap ≠ [] ∧ cap.all Char.isDigit = true := by
  induction l with
  | nil => simp [findMatch] at h
  | cons c cs ih =>
    unfold findMatch at h
    cases hm : matchAt (c :: cs) with
    | some d => rw [hm] at h; injection h with h; exact h ▸ matchAt_capture hm
    | none => rw [hm] at h; exact ih h

/-- Spark's string-to-int cast on a nonempty digit string: the numeric value
when it fits in 32 bits, `NULL` on overflow. -/
lemma castInteger_digits {cap : List Char} (h1 : cap ≠ [])
    (h2 : cap.all Char.isDigit = true) :
    castInteger (String.mk cap) =
      if digitsToNat cap ≤ 2147483647 then some ((digitsToNat cap : Int))
      else none := by
  obtain ⟨c, cs, rfl⟩ := List.exists_cons_of_ne_nil h1
  have hc : c.isDigit = true := by
    simp only [List.all_cons, Bool.and_eq_true] at h2
    exact h2.1
  have hcm : c ≠ '-' := by
    intro e; rw [e] at hc; exact absurd hc (by decide)
  have hcp : c ≠ '+' := by
    intro e; rw [e] at hc; exact absurd hc (by decide)
  show (if c = '-' then _ else if c = '+' then _ else
      (digitsVal (c :: cs)).bind fun n =>
        if n ≤ 2147483647 then some ((n : Int)) else none) = _
  rw [if_neg hcm, if_neg hcp]
  unfold digitsVal
  rw [if_pos h2]
  rfl

/-- **C2, counterexample.**  The claim states that the parser returns the
first integer captured by the pattern whenever the string matches, and null
only when it does not match.  On the matching label
`"[2147483648-2147483649)"` the pattern matches with captured integer
2147483648, yet the derived `age_lower` is null, because the source casts the
capture with `cast("integer")` and 2147483648 overflows a 32-bit signed
integer. -/
theorem age_lower_overflow_cex :
    findMatch ("[2147483648-2147483649)".data) =
      some ['2', '1', '4', '7', '4', '8', '3', '6', '4', '8'] ∧
    digitsToNat ['2', '1', '4', '7', '4', '8', '3', '6', '4', '8'] =
      2147483648 ∧
    age_lower "[2147483648-2147483649)" = none := by decide

/-- **C2, amended.**  The interval parser is a total function on strings:
when the pattern `[<digits>-<digits>)` does not occur, `age_lower` is null
(never a default zero); when it occurs with first capture `cap`,
`age_lower` is the integer value of `cap` if that value fits in a 32-bit
signed integer, and null on overflow. -/
theorem age_lower_total_spec (s : String) :
    (findMatch s.data = none → age_lower s = none) ∧
    (∀ cap, findMatch s.data = some cap →
      age_lower s =
        if digitsToNat cap ≤ 2147483647 then some ((digitsToNat cap : Int))
        else none) := by
  constructor
  · intro h
    simp only [age_lower, regexp_extract, h]
    rfl
  · intro cap h
    obtain ⟨h1, h2⟩ := findMatch_capture h
    simp only [age_lower, regexp_extract, h]
    exact castInteger_digits h1 h2

/-- **C2, witness.**  A non-matching label yields null, and `"[20-30)"`
yields 20. -/
theorem age_lower_total_spec_witness :
    age_lower "invalid" = none ∧ age_lower "[20-30)" = some 20 :=
  ⟨(age_lower_total_spec "invalid").1 (by decide),
   by rw [(age_lower_total_spec "[20-30)").2 ['2', '0'] (by decide)]; decide⟩

/-- `findMatch` returns the capture of the leftmost matching position. -/
lemma findMatch_first (l : List Char) (k : Nat) (cap : List Char)
    (h : matchAt (l.drop k) = some cap) :
    ∃ k0 cap0, k0 ≤ k ∧ (∀ i, i < k0 → matchAt (l.drop i) = none) ∧
      matchAt (l.drop k0) = some cap0 ∧ findMatch l = some cap0 := by
  induction l generalizing k with
  | nil => rw [List.drop_nil] at h; simp [matchAt] at h
  | cons c cs ih =>
    cases hm : matchAt (c :: cs) with
    | some d =>
      exact ⟨0, d, Nat.zero_le k, fun i hi => absurd hi (Nat.not_lt_zero i),
        hm, by simp [findMatch, hm]⟩
    | none =>
      cases k with
      | zero => rw [List.drop_zero] at h; rw [hm] at h; exact absurd h (by simp)
      | succ k1 =>
        rw [List.drop_succ_cons] at h
        obtain ⟨k0, cap0, hle, hnone, hm0, hfind⟩ := ih k1 h
        refine ⟨k0 + 1, cap0, Nat.succ_le_succ hle, ?_, ?_, ?_⟩
        · intro i hi
          cases i with
          | zero => simpa using hm
          | succ i1 =>
            rw [List.drop_succ_cons]
            exact hnone i1 (Nat.lt_of_succ_lt_succ hi)
        · rw [List.drop_succ_cons]; exact hm0
        · rw [findMatch, hm]; exact hfind

/-- **C9 (confirmed).**  The pattern match is unanchored substring
extraction: if the pattern `[<digits>-<digits>)` matches at any position `k`
of the input (arbitrary text may surround it), then `age_lower` is computed
from the capture at the leftmost matching position `k0 ≤ k`, not from a
whole-string match. -/
theorem age_lower_unanchored (s : String) (k : Nat) (cap : List Char)
    (h : matchAt (s.data.drop k) = some cap) :
    ∃ k0 cap0, k0 ≤ k ∧ (∀ i, i < k0 → matchAt (s.data.drop i) = none) ∧
      matchAt (s.data.drop k0) = some cap0 ∧
      age_lower s = castInteger (String.mk cap0) := by
  obtain ⟨k0, cap0, h1, h2, h3, h4⟩ := findMatch_first s.data k cap h
  exact ⟨k0, cap0, h1, h2, h3, by simp only [age_lower, regexp_extract, h4]⟩

/-- **C9, witness.**  On `"xx[20-30)yy"` the pattern matches at position 2
surrounded by extra text, and the parser extracts 20. -/
theorem age_lower_unanchored_witness :
    (∃ k0 cap0, k0 ≤ 2 ∧
      (∀ i, i < k0 → matchAt (("xx[20-30)yy" : String).data.drop i) = none) ∧
      matchAt (("xx[20-30)yy" : String).data.drop k0) = some cap0 ∧
      age_lower "xx[20-30)yy" = castInteger (String.mk cap0)) ∧
    age_lower "xx[20-30)yy" = some 20 :=
  ⟨age_lower_unanchored "xx[20-30)yy" 2 ['2', '0'] (by decide), by decide⟩

/-- Membership in the joined output comes from member rows satisfying the
join predicate. -/
lemma mem_joined_df {ps : List Patient} {rs : List ReadmissionProc}
    {x : Patient × ReadmissionProc} (h : x ∈ joined_df ps rs) :
    x.1 ∈ ps ∧ x.2 ∈ rs ∧ joinCond x.1 x.2 = true := by
  simp only [joined_df, List.mem_flatMap, List.mem_map, List.mem_filter] at h
  obtain ⟨p, hp, r, ⟨hr, hc⟩, rfl⟩ := h
  exact ⟨hp, hr, hc⟩

/-- A true join predicate means a non-null lower bound containing the age. -/
lemma joinCond_true {p : Patient} {r : ReadmissionProc}
    (h : joinCond p r = true) :
    ∃ lo, r.age_lower = some lo ∧ lo ≤ p.age ∧ p.age ≤ lo + 9 := by
  unfold joinCond at h
  cases hal : r.age_lower with
  | none => rw [hal] at h; exact absurd h (by simp)
  | some lo =>
    rw [hal] at h
    exact ⟨lo, rfl, of_decide_eq_true h⟩

/-- **C1 (confirmed).**  Every record of the joined output satisfies
`age_lower ≤ patient.age ≤ age_lower + 9` with a non-null `age_lower`. -/
theorem joined_df_range (ps : List Patient) (rs : List ReadmissionProc)
    (p : Patient) (r : ReadmissionProc) (h : (p, r) ∈ joined_df ps rs) :
    ∃ lo, r.age_lower = some lo ∧ lo ≤ p.age ∧ p.age ≤ lo + 9 :=
  joinCond_true (mem_joined_df h).2.2

/-- **C1, witness.**  A patient of age 25 joined against a readmission with
bucket `"[20-30)"` produces exactly one JoinedRecord, and that record
satisfies the interval bounds with `age_lower = 20`. -/
theorem joined_df_range_witness :
    (joined_df [samplePatient 25]
        [addAgeLower (sampleReadmission "[20-30)")]).length = 1 ∧
    (∃ lo, (addAgeLower (sampleReadmission "[20-30)")).age_lower = some lo ∧
      lo ≤ (samplePatient 25).age ∧ (samplePatient 25).age ≤ lo + 9) :=
  ⟨by decide,
   joined_df_range [samplePatient 25]
     [addAgeLower (sampleReadmission "[20-30)")]
     (samplePatient 25) (addAgeLower (sampleReadmission "[20-30)"))
     (by decide)⟩

/-- In-range agreement: when the stored lower bound satisfies
`-2^31 ≤ lo` and `lo + 9 < 2^31` (true of every bound the cast produces
below `2^31 - 9`), the program's wrapped predicate coincides with the
mathematical interval test. -/
lemma joinCond32_eq_joinCond {p : Patient} {r : ReadmissionProc} {lo : Int}
    (h : r.age_lower = some lo) (h1 : -2147483648 ≤ lo)
    (h2 : lo + 9 < 2147483648) :
    joinCond32 p r = joinCond p r := by
  have e : wrap32 (lo + 9) = lo + 9 := by
    unfold wrap32
    rw [Int.emod_eq_of_lt (by omega) (by omega)]
    omega
  simp [joinCond32, joinCond, h, e]

/-- Multiplicity law of the bit-faithful nested-loop join: occurrences of a
patient in the output are its occurrences in the input times the
readmissions passing the program's predicate. -/
lemma countP_joined_df32 (ps : List Patient) (rs : List ReadmissionProc)
    (p : Patient) :
    (joined_df32 ps rs).countP (fun x => decide (x.1 = p)) =
      ps.count p * rs.countP (fun r => joinCond32 p r) := by
  induction ps with
  | nil => simp [joined_df32]
  | cons q qs ih =>
    have e : joined_df32 (q :: qs) rs =
        ((rs.filter fun r => joinCond32 q r).map fun r => (q, r)) ++
          joined_df32 qs rs := by
      simp [joined_df32]
    rw [e, List.countP_append, ih, List.countP_map]
    by_cases hqp : q = p
    · subst hqp
      have e2 : ((fun (x : Patient × ReadmissionProc) => decide (x.1 = q)) ∘
          fun r => (q, r)) = fun _ => true := by
        funext r; simp
      rw [e2, List.countP_true, ← List.countP_eq_length_filter,
        List.count_cons_self]
      ring
    · have e2 : ((fun (x : Patient × ReadmissionProc) => decide (x.1 = p)) ∘
          fun r => (q, r)) = fun _ => false := by
        funext r; simp [hqp]
      rw [e2]
      simp [List.count_cons_of_ne (Ne.symm hqp)]

/-- **C3, counterexample.**  The claim counts readmissions whose interval
`[age_lower, age_lower + 9]` contains the patient's age.  At patient age
2147483640 against the bucket `"[2147483639-2147483649)"`, `age_lower`
parses to 2147483639 and the mathematical interval contains the age (the
claimed count is 1), but the program's `between` computes
`age_lower + 9` in 32-bit arithmetic, which wraps to `-2^31`, so the
program emits zero rows and the patient is absent from the output. -/
theorem joined_df32_wrap_cex :
    (addAgeLower
      (sampleReadmission "[2147483639-2147483649)")).age_lower =
      some 2147483639 ∧
    ([addAgeLower (sampleReadmission "[2147483639-2147483649)")].countP
      (fun r => joinCond (samplePatient 2147483640) r)) = 1 ∧
    wrap32 (2147483639 + 9) = -2147483648 ∧
    joined_df32 [samplePatient 2147483640]
      [addAgeLower (sampleReadmission "[2147483639-2147483649)")] = [] ∧
    (joined_df32 [samplePatient 2147483640]
      [addAgeLower (sampleReadmission "[2147483639-2147483649)")]).countP
      (fun x => decide (x.1 = samplePatient 2147483640)) = 0 := by
  decide

/-- **C3, amended.**  A patient record occurring once in the input appears
in the joined output exactly as many times as there are readmission records
passing the program's between-predicate: non-null `age_lower` with
`age_lower ≤ age ≤ upper`, where `upper` is `age_lower + 9` evaluated in
32-bit wrapping integer arithmetic (by `joinCond32_eq_joinCond` this is the
count of readmissions whose interval `[age_lower, age_lower + 9]` contains
the age whenever `age_lower + 9` does not overflow `Int32`). -/
theorem joined_df32_multiplicity (ps : List Patient)
    (rs : List ReadmissionProc) (p : Patient) (h : ps.count p = 1) :
    (joined_df32 ps rs).countP (fun x => decide (x.1 = p)) =
      rs.countP (fun r => joinCond32 p r) := by
  rw [countP_joined_df32, h, Nat.one_mul]

/-- **C3, witness.**  A patient of age 35 joined against only a `"[20-30)"`
readmission appears zero times and the joined output is empty. -/
theorem joined_df32_multiplicity_witness :
    (joined_df32 [samplePatient 35]
        [addAgeLower (sampleReadmission "[20-30)")]).countP
        (fun x => decide (x.1 = samplePatient 35)) =
      ([addAgeLower (sampleReadmission "[20-30)")].countP
        (fun r => joinCond32 (samplePatient 35) r)) ∧
    ([addAgeLower (sampleReadmission "[20-30)")].countP
        (fun r => joinCond32 (samplePatient 35) r)) = 0 ∧
    joined_df32 [samplePatient 35]
        [addAgeLower (sampleReadmission "[20-30)")] = [] :=
  ⟨joined_df32_multiplicity [samplePatient 35]
     [addAgeLower (sampleReadmission "[20-30)")] (samplePatient 35)
     (by decide),
   by decide, by decide⟩

/-- **C4 (confirmed).**  A readmission record whose bucket label failed to
parse (`age_lower` null) contributes zero rows to the joined output,
whatever patients are present; the parse failure is a representable value,
not an exception, so the (total) pipeline functions proceed past it. -/
theorem joined_df_null_excluded (ps : List Patient)
    (rs : List ReadmissionProc) (r : ReadmissionProc)
    (h : r.age_lower = none) :
    (joined_df ps rs).countP (fun x => decide (x.2 = r)) = 0 := by
  rw [List.countP_eq_zero]
  intro x hx
  obtain ⟨-, -, hc⟩ := mem_joined_df hx
  simp only [decide_eq_true_eq]
  intro e
  obtain ⟨lo, hlo, -⟩ := joinCond_true hc
  rw [e, h] at hlo
  exact absurd hlo (by simp)

/-- **C4, witness.**  The unparseable bucket `"invalid"` yields a null
`age_lower` and zero joined rows even with patients of several ages
present. -/
theorem joined_df_null_excluded_witness :
    (addAgeLower (sampleReadmission "invalid")).age_lower = none ∧
    (joined_df [samplePatient 25, samplePatient 35]
        [addAgeLower (sampleReadmission "invalid")]).countP
        (fun x => decide (x.2 = addAgeLower (sampleReadmission "invalid"))) = 0 ∧
    joined_df [samplePatient 25, samplePatient 35]
        [addAgeLower (sampleReadmission "invalid")] = [] :=
  ⟨by decide,
   joined_df_null_excluded [samplePatient 25, samplePatient 35]
     [addAgeLower (sampleReadmission "invalid")]
     (addAgeLower (sampleReadmission "invalid")) (by decide),
   by decide⟩

/-- `idsFrom` returns the rows unchanged, in order. -/
lemma idsFrom_map_fst (i j : Nat) (l : List α) :
    (idsFrom i j l).map Prod.fst = l := by
  induction l generalizing j with
  | nil => rfl
  | cons a rest ih => simp [idsFrom, ih]

/-- Ids produced by `idsFrom` are at least the starting id. -/
lemma mem_idsFrom_snd {i j y : Nat} {l : List α}
    (h : y ∈ (idsFrom i j l).map Prod.snd) : i * 2 ^ 33 + j ≤ y := by
  induction l generalizing j with
  | nil => simp [idsFrom] at h
  | cons a rest ih =>
    simp only [idsFrom, List.map_cons, List.mem_cons] at h
    cases h with
    | inl h => omega
    | inr h => have := ih h; omega

/-- Ids produced by `idsFrom` are below the starting id plus the partition
size. -/
lemma mem_idsFrom_snd_lt {i j y : Nat} {l : List α}
    (h : y ∈ (idsFrom i j l).map Prod.snd) :
    y < i * 2 ^ 33 + j + l.length := by
  induction l generalizing j with
  | nil => simp [idsFrom] at h
  | cons a rest ih =>
    simp only [idsFrom, List.map_cons, List.mem_cons] at h
    simp only [List.length_cons]
    cases h with
    | inl h => omega
    | inr h => have := ih h; omega

/-- Within one partition, ids are strictly increasing. -/
lemma idsFrom_snd_pairwise (i j : Nat) (l : List α) :
    ((idsFrom i j l).map Prod.snd).Pairwise (· < ·) := by
  induction l generalizing j with
  | nil => simp [idsFrom]
  | cons a rest ih =>
    simp only [idsFrom, List.map_cons]
    refine List.Pairwise.cons ?_ (ih (j + 1))
    intro y hy
    have := mem_idsFrom_snd hy
    omega

/-- `monotonically_increasing_id` returns the rows unchanged, in partition
order. -/
lemma monotonically_increasing_id_map_fst (i : Nat) (parts : List (List α)) :
    (monotonically_increasing_id i parts).map Prod.fst = parts.flatten := by
  induction parts generalizing i with
  | nil => rfl
  | cons part rest ih =>
    simp [monotonically_increasing_id, idsFrom_map_fst, ih]

/-- Ids of partitions from index `i` on are at least `i * 2^33`. -/
lemma mem_monotonically_increasing_id_snd {i y : Nat} {parts : List (List α)}
    (h : y ∈ (monotonically_increasing_id i parts).map Prod.snd) :
    i * 2 ^ 33 ≤ y := by
  induction parts generalizing i with
  | nil => simp [monotonically_increasing_id] at h
  | cons part rest ih =>
    simp only [monotonically_increasing_id, List.map_append,
      List.mem_append] at h
    cases h with
    | inl h => have := mem_idsFrom_snd h; omega
    | inr h =>
      have := ih h
      have e : i * 2 ^ 33 ≤ (i + 1) * 2 ^ 33 :=
        Nat.mul_le_mul_right _ (Nat.le_succ i)
      omega

/-- When no partition exceeds `2^33` rows, the assigned ids are strictly
increasing across the whole dataframe. -/
lemma monotonically_increasing_id_snd_pairwise (i : Nat)
    (parts : List (List α)) (h : ∀ part ∈ parts, part.length ≤ 2 ^ 33) :
    ((monotonically_increasing_id i parts).map Prod.snd).Pairwise (· < ·) := by
  induction parts generalizing i with
  | nil => simp [monotonically_increasing_id]
  | cons part rest ih =>
    simp only [monotonically_increasing_id, List.map_append]
    rw [List.pairwise_append]
    refine ⟨idsFrom_snd_pairwise i 0 part,
      ih (i + 1) (fun q hq => h q (List.mem_cons_of_mem _ hq)), ?_⟩
    intro a ha b hb
    have h1 : a < i * 2 ^ 33 + 0 + part.length := mem_idsFrom_snd_lt ha
    have h2 : (i + 1) * 2 ^ 33 ≤ b := mem_monotonically_increasing_id_snd hb
    have h3 : part.length ≤ 2 ^ 33 := h part (List.mem_cons_self _ _)
    have e : (i + 1) * 2 ^ 33 = i * 2 ^ 33 + 2 ^ 33 := by ring
    omega

/-- **C7 (confirmed).**  Identifier assignment: given the patient records in
input order (partitioned, no partition exceeding `2^33` rows), it returns
the same records in the same order, each augmented with a `patient_id`; the
ids are pairwise distinct and monotonically non-decreasing in input order
(they are not required to be contiguous or to start at zero, and indeed ids
restart at `k * 2^33` in partition `k`). -/
theorem withColumn_patient_id_spec {α : Type} (parts : List (List α))
    (h : ∀ part ∈ parts, part.length ≤ 2 ^ 33) :
    (withColumn_patient_id parts).map Prod.fst = parts.flatten ∧
    ((withColumn_patient_id parts).map Prod.snd).Nodup ∧
    ((withColumn_patient_id parts).map Prod.snd).Pairwise (· ≤ ·) := by
  have hp := monotonically_increasing_id_snd_pairwise 0 parts h
  exact ⟨monotonically_increasing_id_map_fst 0 parts,
    hp.imp fun hab => Nat.ne_of_lt hab,
    hp.imp fun hab => Nat.le_of_lt hab⟩

/-- **C7, witness.**  Two partitions `["a", "b"]` and `["c"]`: the records
come back in order with distinct, non-decreasing (here 0, 1, 2^33 — not
contiguous) ids. -/
theorem withColumn_patient_id_spec_witness :
    (withColumn_patient_id [["a", "b"], ["c"]]).map Prod.fst =
      ([["a", "b"], ["c"]] : List (List String)).flatten ∧
    ((withColumn_patient_id [["a", "b"], ["c"]]).map Prod.snd).Nodup ∧
    ((withColumn_patient_id [["a", "b"], ["c"]]).map
      Prod.snd).Pairwise (· ≤ ·) :=
  withColumn_patient_id_spec [["a", "b"], ["c"]] (by decide)

/-- **C6 (confirmed).**  The pipeline is a deterministic function of its
inputs: two runs on equal inputs with equal identifier-assignment order
(equal partitioning) produce the same joined record set and the same
reports.  Every stage of the embedding is a pure function, so the only
run-to-run variation Spark permits — the partitioning feeding
`monotonically_increasing_id` and group/sort order — is fixed by the
hypotheses. -/
theorem runPipeline_deterministic (parts1 parts2 : List (List PatientRaw))
    (rs1 rs2 : List Readmission) (hp : parts1 = parts2) (hr : rs1 = rs2) :
    runPipeline parts1 rs1 = runPipeline parts2 rs2 := by
  rw [hp, hr]

/-- **C6, witness.**  A concrete re-run on unchanged inputs. -/
theorem runPipeline_deterministic_witness :
    runPipeline [[samplePatientRaw 25]] [sampleReadmission "[20-30)"] =
      runPipeline [[samplePatientRaw 25]] [sampleReadmission "[20-30)"] :=
  runPipeline_deterministic _ _ _ _ rfl rfl

/-- **C5, counterexample.**  The claim says the output fields are the union
of both sides' fields, with the readmission side's colliding column kept
under a source-qualified name.  In fact the readmission side's `age_lower`
column is dropped from the 32-column select, and the colliding `age` appears
exactly once (the patient side's), with no second qualified variant. -/
theorem final_df_not_union_cex :
    "age_lower" ∈ readmissions_df_columns ∧
    "age_lower" ∉ final_df_columns ∧
    "age" ∈ readmissions_df_columns ∧
    final_df_columns.count "age" = 1 := by decide

/-- **C5, amended.**  When both sides define `age`, every joined output
record carries the patient side's value (patient side wins); the output
fields are a fixed explicit selection: every patient-side field is selected,
every readmission-side field except the colliding `age` and the derived
`age_lower` is selected, and those two are dropped entirely rather than
retained under a source-qualified name. -/
theorem select_final_collision_policy :
    (∀ (p : Patient) (r : ReadmissionProc), (select_final p r).age = p.age) ∧
    "age_lower" ∉ final_df_columns ∧
    (selectExprs.all fun e =>
      !(e.1 == Side.r && (e.2.1 == "age" || e.2.1 == "age_lower"))) = true ∧
    (readmissions_df_columns.all fun c =>
      (c == "age" || c == "age_lower") ||
        selectExprs.any fun e =>
          e.1 == Side.r && e.2.1 == c && e.2.2 == none) = true ∧
    (patients_df_columns.all fun c =>
      selectExprs.any fun e => e.1 == Side.p && e.2.1 == c) = true :=
  ⟨fun _ _ => rfl, by decide, by decide, by decide, by decide⟩

/-- **C8 (confirmed).**  The pipeline produces exactly seven console report
categories — gender distribution, average age, top-5 hospitals, top-5
doctors, readmission counts, average time-in-hospital by readmission status,
average billing by admission type — each a grouped aggregation over the
joined (selected) record set, in exactly that order. -/
theorem consoleReports_spec (parts : List (List PatientRaw))
    (rs : List Readmission) :
    (runPipeline parts rs).2 = consoleReports (runPipeline parts rs).1 ∧
    ((runPipeline parts rs).2).map Report.category =
      [ "Gender Distribution", "Average Age",
        "Top 5 Hospitals by Patient Count", "Top 5 Doctors by Patient Count",
        "Readmission Counts", "Average Time in Hospital by Readmission",
        "Average Billing by Admission Type" ] ∧
    ((runPipeline parts rs).2).length = 7 ∧
    (runPipeline parts rs).2 =
      [ Report.genderDistribution
          (groupByCount (fun x => x.gender) (runPipeline parts rs).1)
      , Report.averageAge
          (avgRound2 (fun x => (x.age : ℚ)) (runPipeline parts rs).1)
      , Report.topHospitals
          (top5 (groupByCount (fun x => x.hospital) (runPipeline parts rs).1))
      , Report.topDoctors
          (top5 (groupByCount (fun x => x.doctor) (runPipeline parts rs).1))
      , Report.readmissionCounts
          (groupByCount (fun x => x.readmitted) (runPipeline parts rs).1)
      , Report.avgTimeInHospitalByReadmission
          (groupByAvg (fun x => x.readmitted)
            (fun x => (x.time_in_hospital : ℚ)) (runPipeline parts rs).1)
      , Report.avgBillingByAdmissionType
          (groupByAvg (fun x => x.admission_type)
            (fun x => x.billing_amount) (runPipeline parts rs).1) ] :=
  ⟨rfl, rfl, rfl, rfl⟩

/-- **C10 (confirmed).**  The persisted and reported output schema is exactly
the 32 explicitly selected columns `patient_id` through `readmitted`, in
select order; the derived `age_lower` and the readmission-side age-bucket
label are not among them. -/
theorem final_df_schema :
    final_df_columns =
      [ "patient_id", "name", "age", "gender", "blood_type",
        "medical_condition", "date_of_admission", "doctor", "hospital",
        "insurance_provider", "billing_amount", "room_number",
        "admission_type", "discharge_date", "medication", "test_results",
        "time_in_hospital", "n_lab_procedures", "n_procedures",
        "n_medications", "n_outpatient", "n_inpatient", "n_emergency",
        "medical_specialty", "diag_1", "diag_2", "diag_3", "glucose_test",
        "a1ctest", "change", "diabetes_med", "readmitted" ] ∧
    final_df_columns.length = 32 ∧
    "age_lower" ∉ final_df_columns ∧
    (selectExprs.all fun e => !(e.1 == Side.r && e.2.1 == "age")) = true ∧
    (selectExprs.all fun e => !(e.2.1 == "age_lower")) = true := by
  refine ⟨by decide, by decide, by decide, by decide, by decide⟩

end HealthcareETL
